import Mathlib

/-!
Shallow embedding of the local-plugin provider service (src/src/service.rs).

The service implements the `Provider` RPC trait over two entities, Tasks and
Lists, stored in two tables keyed by `id_task` / `id_list`, with a filterable
column `parent_list` on tasks.  Each handler opens a fresh storage connection
(`establish_connection`), runs one query, and maps the result into a response
envelope `{successful, message, entity?}`.  Streaming handlers spawn a producer
that sends one response per result row on a bounded channel and then closes it.

The storage layer (`crate::database`, `crate::models`, `crate::schema`) is not
part of the sources; it is modelled from the spec (sections 3, 4.1, 4.2, 6):
a connection either fails as a whole (`ConnectionError`) or yields the current
database state, the entity mapper is a 1:1 field-aligned round-trip preserving
conversion, and the two tables hold rows in a storage-native order that queries
preserve.
-/

/-- Modelled from the spec: the wire-level `Task` entity (proto `Task`,
crate `proto_rust`, absent from the sources).  Fields follow the columns set by
`update_task` in src/src/service.rs plus the `parent_list` back-reference. -/
structure ProtoTask where
  id_task : String
  parent_list : String
  title : String
  body : String
  completed_on : Option String
  due_date : Option String
  importance : Int
  favorite : Bool
  is_reminder_on : Bool
  reminder_date : Option String
  status : Int
  created_date_time : Option String
  last_modified_date_time : Option String
deriving DecidableEq

/-- Modelled from the spec: the wire-level `List` entity (proto `List`, absent
from the sources; named `ProtoList` here because `List` is taken in Lean; likewise `ProtoTask`). -/
structure ProtoList where
  id_list : String
  name : String
  is_owner : Bool
  icon_name : String
  provider : String
deriving DecidableEq

/-- Modelled from the spec: the storage-row representation of a Task
(`QueryableTask` in `crate::models`, absent from the sources).  Per spec §4.2
its fields align 1:1 with the wire representation. -/
structure QueryableTask where
  id_task : String
  parent_list : String
  title : String
  body : String
  completed_on : Option String
  due_date : Option String
  importance : Int
  favorite : Bool
  is_reminder_on : Bool
  reminder_date : Option String
  status : Int
  created_date_time : Option String
  last_modified_date_time : Option String
deriving DecidableEq

/-- Modelled from the spec: the storage-row representation of a List
(`QueryableList` in `crate::models`, absent from the sources). -/
structure QueryableList where
  id_list : String
  name : String
  is_owner : Bool
  icon_name : String
  provider : String
deriving DecidableEq

/-- Modelled from the spec: the entity mapper direction `WireTask -> StorageTask`
(`impl From<Task> for QueryableTask`); pure, total, field-for-field. -/
def ProtoTask.toQueryable (t : ProtoTask) : QueryableTask :=
  ⟨t.id_task, t.parent_list, t.title, t.body, t.completed_on, t.due_date,
   t.importance, t.favorite, t.is_reminder_on, t.reminder_date, t.status,
   t.created_date_time, t.last_modified_date_time⟩

/-- Modelled from the spec: the entity mapper direction `StorageTask -> WireTask`
(`impl From<QueryableTask> for Task`); pure, total, field-for-field. -/
def QueryableTask.toTask (t : QueryableTask) : ProtoTask :=
  ⟨t.id_task, t.parent_list, t.title, t.body, t.completed_on, t.due_date,
   t.importance, t.favorite, t.is_reminder_on, t.reminder_date, t.status,
   t.created_date_time, t.last_modified_date_time⟩

/-- Modelled from the spec: `WireList -> StorageList`. -/
def ProtoList.toQueryable (l : ProtoList) : QueryableList :=
  ⟨l.id_list, l.name, l.is_owner, l.icon_name, l.provider⟩

/-- Modelled from the spec: `StorageList -> WireList`. -/
def QueryableList.toList (l : QueryableList) : ProtoList :=
  ⟨l.id_list, l.name, l.is_owner, l.icon_name, l.provider⟩

/-- Response envelope for Task operations (proto `TaskResponse`). -/
structure TaskResponse where
  successful : Bool
  message : String
  task : Option ProtoTask
deriving DecidableEq

/-- `TaskResponse::default()`: prost defaults are `false`, `""`, `None`. -/
def TaskResponse.init : TaskResponse := ⟨false, "", none⟩

/-- Response envelope for List operations (proto `ListResponse`). -/
structure ListResponse where
  successful : Bool
  message : String
  list : Option ProtoList
deriving DecidableEq

/-- `ListResponse::default()`. -/
def ListResponse.init : ListResponse := ⟨false, "", none⟩

/-- Response envelope for `read_task_ids_from_list` (proto `TaskIdResponse`). -/
structure TaskIdResponse where
  successful : Bool
  message : String
  tasks : List String
deriving DecidableEq

/-- Response envelope for `read_all_list_ids` (proto `ListIdResponse`). -/
structure ListIdResponse where
  successful : Bool
  message : String
  lists : List String
deriving DecidableEq

/-- Response envelope for `read_task_count_from_list` (proto `CountResponse`). -/
structure CountResponse where
  successful : Bool
  message : String
  count : Int
deriving DecidableEq

/-- `CountResponse::default()`. -/
def CountResponse.init : CountResponse := ⟨false, "", 0⟩

/-- The storage state: the `tasks` and `lists` tables, rows kept in
storage-native order (spec §5: result order equals the storage engine's
order, no explicit sort imposed by the core). -/
structure Db where
  tasks : List QueryableTask
  lists : List QueryableList
deriving DecidableEq

/-- The empty storage state. -/
def emptyDb : Db := ⟨[], []⟩

/-- Modelled from the spec: the per-operation storage environment.
`crate::database::establish_connection` (absent from the sources) either fails
as a whole — `connFail = some e`, where `e` is the connection error rendered by
`err.to_string()` — or yields a connection to the current state `db`
(spec §4.1: a single error kind, treated uniformly by every handler). -/
structure Env where
  connFail : Option String
  db : Db

/-- Transport-level fault of the RPC framework (`tonic::Status`).  The service
never constructs one; it appears only in handler return types. -/
structure Status where
  code : Nat
  msg : String
deriving DecidableEq

/-- A transport-level RPC result completed without a `Status` fault. -/
def completes {α : Type} : Except Status α → Bool
  | .ok _ => true
  | .error _ => false

/-- Outcome of a streaming handler's spawned producer: `sent` lists, in order,
the messages put on the channel before it closes; `localResponse` is the final
value of the producer's local `response` variable, which the producer never
sends. -/
structure StreamOutcome (α : Type) where
  sent : List α
  localResponse : α
deriving DecidableEq

/-- Service construction data (struct `LocalService`). -/
structure LocalService where
  id : String
  name : String
  description : String
  icon : String

/-- Modelled from the spec: `tasks.load`, all rows in storage order. -/
def Db.loadTasks (db : Db) : List QueryableTask := db.tasks

/-- Modelled from the spec: `lists.load`, all rows in storage order. -/
def Db.loadLists (db : Db) : List QueryableList := db.lists

/-- Modelled from the spec: the external schema declares `id_task` the unique
primary key of `tasks` (spec §3: identifiers unique), so inserting a row whose
key is already present fails with a constraint error from the storage engine;
otherwise the row is appended. -/
def Db.insertTask (db : Db) (t : QueryableTask) : Except String Db :=
  if db.tasks.any (fun r => r.id_task == t.id_task) then
    .error "UNIQUE constraint failed: tasks.id_task"
  else
    .ok { db with tasks := db.tasks ++ [t] }

/-- Modelled from the spec: `id_list` is the unique primary key of `lists`. -/
def Db.insertList (db : Db) (l : QueryableList) : Except String Db :=
  if db.lists.any (fun r => r.id_list == l.id_list) then
    .error "UNIQUE constraint failed: lists.id_list"
  else
    .ok { db with lists := db.lists ++ [l] }

/-- Modelled from the spec: `diesel::update(tasks.filter(id_task.eq(q.id_task))).set(...)`.
The `set` clause in `update_task` names every column except `parent_list`, so a
matching row takes all of `q`'s values while keeping its own back-reference. -/
def Db.updateTask (db : Db) (q : QueryableTask) : Db :=
  { db with
    tasks := db.tasks.map (fun r =>
      if r.id_task == q.id_task then { q with parent_list := r.parent_list } else r) }

/-- Modelled from the spec: `diesel::update(lists.filter(id_list.eq(q.id_list))).set(...)`
with the four non-key columns named in `update_list`. -/
def Db.updateList (db : Db) (q : QueryableList) : Db :=
  { db with
    lists := db.lists.map (fun r =>
      if r.id_list == q.id_list then
        { r with name := q.name, is_owner := q.is_owner,
                 icon_name := q.icon_name, provider := q.provider }
      else r) }

/-- Modelled from the spec: `diesel::delete(tasks.filter(id_task.eq(i)))` removes
every row matching the key filter (spec §4.3: 0, 1 or more rows). -/
def Db.deleteTask (db : Db) (i : String) : Db :=
  { db with tasks := db.tasks.filter (fun r => !(r.id_task == i)) }

/-- Modelled from the spec: `diesel::delete(lists.filter(id_list.eq(i)))`. -/
def Db.deleteList (db : Db) (i : String) : Db :=
  { db with lists := db.lists.filter (fun r => !(r.id_list == i)) }

/-- Handler `get_id`: returns the configured id; cannot fail. -/
def get_id (s : LocalService) : Except Status String := .ok s.id

/-- Handler `get_name`. -/
def get_name (s : LocalService) : Except Status String := .ok s.name

/-- Handler `get_description`. -/
def get_description (s : LocalService) : Except Status String := .ok s.description

/-- Handler `get_icon_name`. -/
def get_icon_name (s : LocalService) : Except Status String := .ok s.icon

/-- Producer of `read_all_tasks` (src/src/service.rs:45-80): loads all tasks;
on success sends one `TaskResponse` per row, each `successful: true` with the
mapped task; on failure sends nothing and only records the error message in the
spawned task's local `response`. -/
def read_all_tasks (env : Env) : StreamOutcome TaskResponse :=
  match env.connFail with
  | some e => ⟨[], { TaskResponse.init with message := e }⟩
  | none =>
    ⟨env.db.loadTasks.map (fun t =>
       ⟨true, "Task fetched succesfully.", some t.toTask⟩),
     { TaskResponse.init with successful := true }⟩

/-- RPC wrapper of `read_all_tasks`: the handler always returns
`Ok(Response::new(ReceiverStream::new(rx)))`. -/
def read_all_tasks_rpc (env : Env) : Except Status (StreamOutcome TaskResponse) :=
  .ok (read_all_tasks env)

/-- Producer of `read_tasks_from_list` (src/src/service.rs:84-121): equality
filter on `parent_list`, otherwise as `read_all_tasks` (note the distinct
success message, without final period). -/
def read_tasks_from_list (env : Env) (i : String) : StreamOutcome TaskResponse :=
  match env.connFail with
  | some e => ⟨[], { TaskResponse.init with message := e }⟩
  | none =>
    ⟨(env.db.tasks.filter (fun r => r.parent_list == i)).map (fun t =>
       ⟨true, "Task fetched successfully", some t.toTask⟩),
     { TaskResponse.init with successful := true }⟩

/-- RPC wrapper of `read_tasks_from_list`. -/
def read_tasks_from_list_rpc (env : Env) (i : String) :
    Except Status (StreamOutcome TaskResponse) :=
  .ok (read_tasks_from_list env i)

/-- Handler `read_task_ids_from_list` (src/src/service.rs:123-152): projects
`id_task` over the `parent_list` filter.  The response is initialised with
`successful: true`; the `Err` arm sets only the fixed message, so `successful`
stays `true` on failure. -/
def read_task_ids_from_list (env : Env) (i : String) : TaskIdResponse :=
  match env.connFail with
  | some _ => ⟨true, "Failed to fetch list of tasks", []⟩
  | none =>
    ⟨true, "", (env.db.tasks.filter (fun r => r.parent_list == i)).map
       (fun r => r.id_task)⟩

/-- RPC wrapper of `read_task_ids_from_list`. -/
def read_task_ids_from_list_rpc (env : Env) (i : String) :
    Except Status TaskIdResponse :=
  .ok (read_task_ids_from_list env i)

/-- Handler `read_task_count_from_list` (src/src/service.rs:154-178): counts
rows whose `id_task` (not `parent_list`) equals the request string. -/
def read_task_count_from_list (env : Env) (i : String) : CountResponse :=
  match env.connFail with
  | some e => { CountResponse.init with message := e }
  | none =>
    { CountResponse.init with
      successful := true,
      count := ((env.db.tasks.filter (fun r => r.id_task == i)).length : Int) }

/-- RPC wrapper of `read_task_count_from_list`. -/
def read_task_count_from_list_rpc (env : Env) (i : String) :
    Except Status CountResponse :=
  .ok (read_task_count_from_list env i)

/-- Handler `create_task` (src/src/service.rs:180-204): inserts the mapped row;
on success echoes the input task back with `successful: true`.  Returns the
response together with the resulting storage state. -/
def create_task (env : Env) (t : ProtoTask) : TaskResponse × Db :=
  match env.connFail with
  | some e => ({ TaskResponse.init with message := e }, env.db)
  | none =>
    match env.db.insertTask t.toQueryable with
    | .error e => ({ TaskResponse.init with message := e }, env.db)
    | .ok db' => (⟨true, "Task added successfully.", some t⟩, db')

/-- RPC wrapper of `create_task` (transport-visible part). -/
def create_task_rpc (env : Env) (t : ProtoTask) : Except Status TaskResponse :=
  .ok (create_task env t).1

/-- Handler `read_task` (src/src/service.rs:206-228): `tasks.find(id).first`;
a missing row surfaces as the `anyhow` context string. -/
def read_task (env : Env) (i : String) : TaskResponse :=
  match env.connFail with
  | some e => { TaskResponse.init with message := e }
  | none =>
    match env.db.tasks.find? (fun r => r.id_task == i) with
    | none => { TaskResponse.init with message := "Failed to fetch list of tasks." }
    | some r => ⟨true, "Task fetched successfully.", some r.toTask⟩

/-- RPC wrapper of `read_task`. -/
def read_task_rpc (env : Env) (i : String) : Except Status TaskResponse :=
  .ok (read_task env i)

/-- Handler `update_task` (src/src/service.rs:230-268): full-column `set` on
the `id_task` filter; success regardless of how many rows matched, no entity
body in the response. -/
def update_task (env : Env) (t : ProtoTask) : TaskResponse × Db :=
  match env.connFail with
  | some e => ({ TaskResponse.init with message := e }, env.db)
  | none =>
    (⟨true, "Task updated successfully.", none⟩, env.db.updateTask t.toQueryable)

/-- RPC wrapper of `update_task`. -/
def update_task_rpc (env : Env) (t : ProtoTask) : Except Status TaskResponse :=
  .ok (update_task env t).1

/-- Handler `delete_task` (src/src/service.rs:270-293). -/
def delete_task (env : Env) (i : String) : TaskResponse × Db :=
  match env.connFail with
  | some e => ({ TaskResponse.init with message := e }, env.db)
  | none =>
    (⟨true, "Task removed successfully.", none⟩, env.db.deleteTask i)

/-- RPC wrapper of `delete_task`. -/
def delete_task_rpc (env : Env) (i : String) : Except Status TaskResponse :=
  .ok (delete_task env i).1

/-- Producer of `read_all_lists` (src/src/service.rs:297-331). -/
def read_all_lists (env : Env) : StreamOutcome ListResponse :=
  match env.connFail with
  | some e => ⟨[], { ListResponse.init with message := e }⟩
  | none =>
    ⟨env.db.loadLists.map (fun l =>
       ⟨true, "List fetched succesfully.", some l.toList⟩),
     { ListResponse.init with successful := true }⟩

/-- RPC wrapper of `read_all_lists`. -/
def read_all_lists_rpc (env : Env) : Except Status (StreamOutcome ListResponse) :=
  .ok (read_all_lists env)

/-- Handler `read_all_list_ids` (src/src/service.rs:333-361): projects
`id_list` over all lists.  As in `read_task_ids_from_list`, the response is
initialised with `successful: true` and the `Err` arm sets only the message. -/
def read_all_list_ids (env : Env) : ListIdResponse :=
  match env.connFail with
  | some _ => ⟨true, "Failed to fetch list of tasks", []⟩
  | none => ⟨true, "", env.db.lists.map (fun r => r.id_list)⟩

/-- RPC wrapper of `read_all_list_ids`. -/
def read_all_list_ids_rpc (env : Env) : Except Status ListIdResponse :=
  .ok (read_all_list_ids env)

/-- Handler `create_list` (src/src/service.rs:363-387): inserts the mapped row;
on success returns `list: None` (no echo, unlike `create_task`). -/
def create_list (env : Env) (l : ProtoList) : ListResponse × Db :=
  match env.connFail with
  | some e => ({ ListResponse.init with message := e }, env.db)
  | none =>
    match env.db.insertList l.toQueryable with
    | .error e => ({ ListResponse.init with message := e }, env.db)
    | .ok db' => (⟨true, "List added succesfully.", none⟩, db')

/-- RPC wrapper of `create_list`. -/
def create_list_rpc (env : Env) (l : ProtoList) : Except Status ListResponse :=
  .ok (create_list env l).1

/-- Handler `read_list` (src/src/service.rs:389-408): `lists.find(id).first`
without an `anyhow` context, so a missing row renders the storage engine's
own not-found description. -/
def read_list (env : Env) (i : String) : ListResponse :=
  match env.connFail with
  | some e => { ListResponse.init with message := e }
  | none =>
    match env.db.lists.find? (fun r => r.id_list == i) with
    | none => { ListResponse.init with message := "Record not found" }
    | some r => ⟨true, "List fetched succesfully.", some r.toList⟩

/-- RPC wrapper of `read_list`. -/
def read_list_rpc (env : Env) (i : String) : Except Status ListResponse :=
  .ok (read_list env i)

/-- Handler `update_list` (src/src/service.rs:410-440). -/
def update_list (env : Env) (l : ProtoList) : ListResponse × Db :=
  match env.connFail with
  | some e => ({ ListResponse.init with message := e }, env.db)
  | none =>
    (⟨true, "List updated succesfully.", none⟩, env.db.updateList l.toQueryable)

/-- RPC wrapper of `update_list`. -/
def update_list_rpc (env : Env) (l : ProtoList) : Except Status ListResponse :=
  .ok (update_list env l).1

/-- Handler `delete_list` (src/src/service.rs:442-465). -/
def delete_list (env : Env) (i : String) : ListResponse × Db :=
  match env.connFail with
  | some e => ({ ListResponse.init with message := e }, env.db)
  | none =>
    (⟨true, "List removed succesfully.", none⟩, env.db.deleteList i)

/-- RPC wrapper of `delete_list`. -/
def delete_list_rpc (env : Env) (i : String) : Except Status ListResponse :=
  .ok (delete_list env i).1

/-- A sample task used by closed witness statements. -/
def sampleTask : ProtoTask :=
  ⟨"T1", "L1", "Buy milk", "", none, none, 0, false, false, none, 0, none, none⟩

/-- A sample list used by closed witness statements. -/
def sampleList : ProtoList := ⟨"L1", "Home", true, "icon", "local"⟩

/-- Claim C1, behaviour of the code at the failing input: when the storage
connection fails, `read_task_ids_from_list` and `read_all_list_ids` do return
the fixed non-empty failure message and an empty id sequence, but with
`successful = true`, not `false` as the claim states — both handlers initialise
the response with `successful: true` and their `Err` arm sets only `message`. -/
theorem id_read_failure_keeps_successful_true :
    read_task_ids_from_list ⟨some "db down", emptyDb⟩ "L1"
      = ⟨true, "Failed to fetch list of tasks", []⟩
    ∧ read_all_list_ids ⟨some "db down", emptyDb⟩
      = ⟨true, "Failed to fetch list of tasks", []⟩ :=
  ⟨rfl, rfl⟩

/-- Claim C2, behaviour of the code at the failing input: the response envelope
invariant fails for `read_task_ids_from_list` under a connection failure — the
response has `successful = true` while `message` is the fixed failure fallback
and the id list is empty, so `successful == true` does not imply a success
message. -/
theorem envelope_invariant_fails_on_id_read :
    (read_task_ids_from_list ⟨some "connection refused", emptyDb⟩ "L0").successful
      = true
    ∧ (read_task_ids_from_list ⟨some "connection refused", emptyDb⟩ "L0").message
      = "Failed to fetch list of tasks"
    ∧ (read_task_ids_from_list ⟨some "connection refused", emptyDb⟩ "L0").tasks
      = [] :=
  ⟨rfl, rfl, rfl⟩

/-- Claim C3: for every input string `s`, `read_task_count_from_list` returns
as its count the number of Task rows whose primary key `id_task` equals `s`
(not the `parent_list` column), with `successful = true` when the query
succeeds. -/
theorem read_task_count_counts_primary_key_matches (db : Db) (s : String) :
    (read_task_count_from_list ⟨none, db⟩ s).count
      = (db.tasks.countP (fun r => r.id_task == s) : Int)
    ∧ (read_task_count_from_list ⟨none, db⟩ s).successful = true := by
  constructor
  · simp [read_task_count_from_list, CountResponse.init,
      List.countP_eq_length_filter]
  · rfl

/-- Claim C4: for every streaming call whose underlying query fails, the
producer sends zero entity messages on the channel (`sent = []`, so in
particular no consumer ever observes anything), and the failure response it
constructs — `successful = false` with the error message — exists only in the
producer's local variable, which is never sent before the channel closes. -/
theorem streaming_failure_sends_nothing (e : String) (db : Db) (s : String) :
    (read_all_tasks ⟨some e, db⟩).sent = []
    ∧ (read_all_tasks ⟨some e, db⟩).localResponse = ⟨false, e, none⟩
    ∧ (read_tasks_from_list ⟨some e, db⟩ s).sent = []
    ∧ (read_tasks_from_list ⟨some e, db⟩ s).localResponse = ⟨false, e, none⟩
    ∧ (read_all_lists ⟨some e, db⟩).sent = []
    ∧ (read_all_lists ⟨some e, db⟩).localResponse = ⟨false, e, none⟩ :=
  ⟨rfl, rfl, rfl, rfl, rfl, rfl⟩

/-- Claim C5: for every streaming call whose query succeeds with `n` result
rows, the producer emits exactly `n` messages in result order, each with
`successful = true` and the entity field populated with the corresponding
mapped entity, and then closes the channel; an empty result set closes the
channel with zero messages emitted. -/
theorem streaming_success_emits_one_message_per_row (db : Db) (s : String) :
    (read_all_tasks ⟨none, db⟩).sent
      = db.loadTasks.map (fun t =>
          ⟨true, "Task fetched succesfully.", some t.toTask⟩)
    ∧ (read_all_tasks ⟨none, db⟩).sent.length = db.tasks.length
    ∧ (read_tasks_from_list ⟨none, db⟩ s).sent
      = (db.tasks.filter (fun r => r.parent_list == s)).map (fun t =>
          ⟨true, "Task fetched successfully", some t.toTask⟩)
    ∧ (read_all_lists ⟨none, db⟩).sent
      = db.loadLists.map (fun l =>
          ⟨true, "List fetched succesfully.", some l.toList⟩)
    ∧ (read_all_lists ⟨none, db⟩).sent.length = db.lists.length
    ∧ (read_all_tasks ⟨none, emptyDb⟩).sent = []
    ∧ (read_all_lists ⟨none, emptyDb⟩).sent = [] := by
  refine ⟨rfl, ?_, rfl, rfl, ?_, rfl, rfl⟩
  · simp [read_all_tasks, Db.loadTasks]
  · simp [read_all_lists, Db.loadLists]

/-- Claim C6: for every list id `s` and every storage state, the producer of
`read_tasks_from_list` streams exactly those Tasks whose `parent_list`
back-reference equals `s`, in storage result order, and no other Tasks; every
streamed message is marked successful. -/
theorem read_tasks_from_list_streams_exactly_matching (db : Db) (s : String) :
    (read_tasks_from_list ⟨none, db⟩ s).sent.map (fun r => r.task)
      = (db.tasks.filter (fun r => r.parent_list == s)).map (fun r =>
          some r.toTask)
    ∧ ((read_tasks_from_list ⟨none, db⟩ s).sent.all (fun r => r.successful))
      = true := by
  constructor
  · simp [read_tasks_from_list]
  · simp [read_tasks_from_list, List.all_eq_true]
    intro x t ht hp hx
    rw [← hx]

/-- Claim C7: every handler invocation completes at the transport layer — it
returns `Ok`, never a transport-level `Status` error — for every environment
and every input; storage failures surface only inside the response payload. -/
theorem all_handlers_complete_at_transport (svc : LocalService) (env : Env)
    (s : String) (t : ProtoTask) (l : ProtoList) :
    completes (get_id svc) = true
    ∧ completes (get_name svc) = true
    ∧ completes (get_description svc) = true
    ∧ completes (get_icon_name svc) = true
    ∧ completes (read_all_tasks_rpc env) = true
    ∧ completes (read_tasks_from_list_rpc env s) = true
    ∧ completes (read_task_ids_from_list_rpc env s) = true
    ∧ completes (read_task_count_from_list_rpc env s) = true
    ∧ completes (create_task_rpc env t) = true
    ∧ completes (read_task_rpc env s) = true
    ∧ completes (update_task_rpc env t) = true
    ∧ completes (delete_task_rpc env s) = true
    ∧ completes (read_all_lists_rpc env) = true
    ∧ completes (read_all_list_ids_rpc env) = true
    ∧ completes (create_list_rpc env l) = true
    ∧ completes (read_list_rpc env s) = true
    ∧ completes (update_list_rpc env l) = true
    ∧ completes (delete_list_rpc env s) = true :=
  ⟨rfl, rfl, rfl, rfl, rfl, rfl, rfl, rfl, rfl, rfl, rfl, rfl, rfl, rfl, rfl,
   rfl, rfl, rfl⟩

/-- Claim C8: on a successful insert, `create_task` echoes the input Task back
unchanged with `successful = true`, while `create_list` on a successful insert
returns `successful = true` with no entity body. -/
theorem create_echoes_task_but_not_list (db1 db2 dbt dbl : Db) (t : ProtoTask)
    (l : ProtoList)
    (ht : db1.insertTask t.toQueryable = .ok dbt)
    (hl : db2.insertList l.toQueryable = .ok dbl) :
    (create_task ⟨none, db1⟩ t).1 = ⟨true, "Task added successfully.", some t⟩
    ∧ (create_list ⟨none, db2⟩ l).1 = ⟨true, "List added succesfully.", none⟩ := by
  constructor
  · simp [create_task, ht]
  · simp [create_list, hl]

/-- Witness for C8: on the empty storage state both inserts succeed, and the
responses are as claimed. -/
theorem create_echoes_task_but_not_list_ok :
    emptyDb.insertTask sampleTask.toQueryable
      = .ok ⟨[sampleTask.toQueryable], []⟩
    ∧ emptyDb.insertList sampleList.toQueryable
      = .ok ⟨[], [sampleList.toQueryable]⟩
    ∧ ((create_task ⟨none, emptyDb⟩ sampleTask).1
        = ⟨true, "Task added successfully.", some sampleTask⟩
      ∧ (create_list ⟨none, emptyDb⟩ sampleList).1
        = ⟨true, "List added succesfully.", none⟩) :=
  ⟨rfl, rfl,
   create_echoes_task_but_not_list emptyDb emptyDb _ _ sampleTask sampleList
     rfl rfl⟩

/-- Claim C9: `delete_list` removes rows only from the lists table — the tasks
table is unchanged for every storage state, including Tasks whose
`parent_list` equals the deleted list id, and a subsequent `read_task` returns
exactly what it returned before the deletion (no cascade). -/
theorem delete_list_leaves_tasks_intact (db : Db) (lid tid : String) :
    ((delete_list ⟨none, db⟩ lid).2).tasks = db.tasks
    ∧ read_task ⟨none, (delete_list ⟨none, db⟩ lid).2⟩ tid
      = read_task ⟨none, db⟩ tid :=
  ⟨rfl, rfl⟩

/-- Claim C10: when the given id matches no stored row, `update_task`,
`update_list`, `delete_task` and `delete_list` still return `successful = true`
with the operation's success message and no entity body, provided the storage
call itself does not error: no affected-row-count check is performed. -/
theorem mutations_succeed_on_missing_id (db : Db) (t : ProtoTask)
    (l : ProtoList) (tid lid : String)
    (_h1 : db.tasks.all (fun r => !(r.id_task == t.id_task)) = true)
    (_h2 : db.lists.all (fun r => !(r.id_list == l.id_list)) = true)
    (_h3 : db.tasks.all (fun r => !(r.id_task == tid)) = true)
    (_h4 : db.lists.all (fun r => !(r.id_list == lid)) = true) :
    (update_task ⟨none, db⟩ t).1 = ⟨true, "Task updated successfully.", none⟩
    ∧ (update_list ⟨none, db⟩ l).1 = ⟨true, "List updated succesfully.", none⟩
    ∧ (delete_task ⟨none, db⟩ tid).1 = ⟨true, "Task removed successfully.", none⟩
    ∧ (delete_list ⟨none, db⟩ lid).1 = ⟨true, "List removed succesfully.", none⟩ :=
  ⟨rfl, rfl, rfl, rfl⟩

/-- Witness for C10: the empty storage state matches no id at all, and the
four mutations still report success. -/
theorem mutations_succeed_on_missing_id_empty :
    emptyDb.tasks.all (fun r => !(r.id_task == sampleTask.id_task)) = true
    ∧ emptyDb.lists.all (fun r => !(r.id_list == sampleList.id_list)) = true
    ∧ ((update_task ⟨none, emptyDb⟩ sampleTask).1
        = ⟨true, "Task updated successfully.", none⟩
      ∧ (update_list ⟨none, emptyDb⟩ sampleList).1
        = ⟨true, "List updated succesfully.", none⟩
      ∧ (delete_task ⟨none, emptyDb⟩ "T9").1
        = ⟨true, "Task removed successfully.", none⟩
      ∧ (delete_list ⟨none, emptyDb⟩ "L9").1
        = ⟨true, "List removed succesfully.", none⟩) :=
  ⟨rfl, rfl,
   mutations_succeed_on_missing_id emptyDb sampleTask sampleList "T9" "L9"
     rfl rfl rfl rfl⟩
